import Mathlib

/-!
Verification of the compiler-explorer bridge (`src/server.py`).

Python strings are modelled as `List Char`; the Python string methods used by
the source (`str.replace` with an empty replacement, `str.lower`, `str.strip`)
are embedded below as `pyRemove`, `pyLower` and `pyStrip`.  Python `dict`
values returned by the remote service are modelled as association lists with
unique keys.  The remote HTTP service, the `httpx` transport and the `re`
regex engine are external collaborators: they enter the model as the outcome
of the one HTTP call (`RequestOutcome`) and as an abstract search predicate.
-/

set_option maxRecDepth 10000

/-- Whitespace test of Python `str.strip` (ASCII part: `' \t\n\r\x0b\x0c'`). -/
def pyIsSpace (c : Char) : Bool :=
  c = ' ' || c = '\t' || c = '\n' || c = '\r' || c = Char.ofNat 11 || c = Char.ofNat 12

/-- Python `s.strip()`: drop leading whitespace, then trailing whitespace. -/
def pyStrip (s : List Char) : List Char :=
  ((s.dropWhile pyIsSpace).reverse.dropWhile pyIsSpace).reverse

/-- Python `s.lower()` (ASCII letters; the source only compares ASCII names). -/
def pyLower (s : List Char) : List Char :=
  s.map Char.toLower

/-- One left-to-right pass of Python `s.replace(pat, "")`, with fuel.
With fuel at least `s.length` the fuel never runs out, because every step
consumes at least one character of `s`.  An empty `pat` leaves `s` unchanged,
exactly as `s.replace("", "")` does in Python. -/
def pyRemoveFuel (pat : List Char) : Nat → List Char → List Char
  | 0, s => s
  | _ + 1, [] => []
  | n + 1, c :: rest =>
    if pat.isPrefixOf (c :: rest) && !pat.isEmpty then
      pyRemoveFuel pat n ((c :: rest).drop pat.length)
    else
      c :: pyRemoveFuel pat n rest

/-- Python `s.replace(pat, "")`: delete every (non-overlapping, left-to-right)
occurrence of `pat` from `s`. -/
def pyRemove (s pat : List Char) : List Char :=
  pyRemoveFuel pat s.length s

/-- `containsSub s pat` decides whether `pat` occurs as a contiguous substring
of `s` (Python `pat in s`). -/
def containsSub (s pat : List Char) : Bool :=
  match s with
  | [] => pat.isEmpty
  | c :: rest => pat.isPrefixOf (c :: rest) || containsSub rest pat

/-- `get_unversioned_compiler_name` from `src/server.py`:
`compiler_name.replace(semver, "").replace("none", "").replace("()", "").strip()`. -/
def get_unversioned_compiler_name (compiler_name : List Char) (semver : List Char) :
    List Char :=
  pyStrip (pyRemove (pyRemove (pyRemove compiler_name semver) "none".toList) "()".toList)

/-- One entry of the compiler listing returned by the remote service
(the fields of the Python dict that the source reads). -/
structure CompilerDesc where
  id : List Char
  name : List Char
  semver : List Char
  deriving DecidableEq, Repr

/-- `infer_compiler_id` from `src/server.py`: an exact (case-sensitive) id
match wins; otherwise the first entry whose lowered and stripped name equals
the lowered and stripped query. -/
def infer_compiler_id (compiler_name_or_id : List Char)
    (compilers : List CompilerDesc) : Option (List Char) :=
  if (compilers.map (fun c => c.id)).contains compiler_name_or_id then
    some compiler_name_or_id
  else
    (compilers.find? fun c =>
      pyStrip (pyLower c.name) == pyStrip (pyLower compiler_name_or_id)).map
      (fun c => c.id)

/-- The exception type `CompilerExplorerError(message, status_code=500)` of
`src/server.py`; `str(e)` of such an exception is its `message`. -/
structure CompilerExplorerError where
  message : String
  status_code : Nat
  deriving DecidableEq, Repr

/-- Outcome of the one HTTP call made inside `_make_request`
(`self.client.request` followed by `raise_for_status()` and `response.json()`),
as seen by the surrounding `try` block.  `α` is the type the JSON body parses
to. -/
inductive RequestOutcome (α : Type) where
  /-- `httpx.TimeoutException` escaped from `client.request`. -/
  | timeout : RequestOutcome α
  /-- `raise_for_status()` raised `httpx.HTTPStatusError` with text `str(e)`
  equal to `detail` and `e.response.status_code` equal to `code`. -/
  | statusError (detail : String) (code : Nat) : RequestOutcome α
  /-- Some other exception with text `detail` escaped from the transport. -/
  | otherError (detail : String) : RequestOutcome α
  /-- A 2xx response arrived but `response.json()` raised
  `json.JSONDecodeError` with text `parseDetail`. -/
  | invalidJson (parseDetail : String) : RequestOutcome α
  /-- A 2xx response arrived and its body parsed to `parsed`. -/
  | ok (parsed : α) : RequestOutcome α

/-- The exceptions that can cross the body of the *outer* `try` of
`_make_request`.  The inner `except json.JSONDecodeError` clause raises a
`CompilerExplorerError` from inside the outer `try` body, so that exception is
itself subject to the outer `except` clauses. -/
inductive RequestTryExc where
  | timeoutExc : RequestTryExc
  | httpStatusExc (detail : String) (code : Nat) : RequestTryExc
  | compilerExplorerExc (message : String) (code : Nat) : RequestTryExc
  | otherExc (detail : String) : RequestTryExc
  deriving DecidableEq, Repr

/-- The body of the outer `try` in `_make_request`: return the parsed JSON, or
the exception that escapes the body.  For an invalid JSON body the escaping
exception is the `CompilerExplorerError("Invalid JSON response: " + detail)`
raised by the inner handler (default status 500). -/
def make_request_try {α : Type} (o : RequestOutcome α) : Except RequestTryExc α :=
  match o with
  | .timeout => .error .timeoutExc
  | .statusError d c => .error (.httpStatusExc d c)
  | .otherError d => .error (.otherExc d)
  | .invalidJson d => .error (.compilerExplorerExc ("Invalid JSON response: " ++ d) 500)
  | .ok v => .ok v

/-- `_make_request` from `src/server.py`: the outer `except` clauses, tried in
source order — `httpx.TimeoutException`, `httpx.HTTPStatusError`, then the
blanket `except Exception`.  A `CompilerExplorerError` escaping the `try` body
matches only the blanket clause, which re-wraps it as
`CompilerExplorerError("Unexpected error: " + str(e))` with status 500. -/
def make_request {α : Type} (o : RequestOutcome α) : Except CompilerExplorerError α :=
  match make_request_try o with
  | .ok v => .ok v
  | .error .timeoutExc => .error ⟨"Request timed out", 500⟩
  | .error (.httpStatusExc d c) => .error ⟨"HTTP error occurred: " ++ d, c⟩
  | .error (.compilerExplorerExc m _) => .error ⟨"Unexpected error: " ++ m, 500⟩
  | .error (.otherExc d) => .error ⟨"Unexpected error: " ++ d, 500⟩

/-- A Python exception escaping a tool function uncaught (not translated to
the framework's `HTTPException` envelope). -/
inductive PyExc where
  | keyError (key : String) : PyExc
  | ceError (message : String) (status_code : Nat) : PyExc
  deriving DecidableEq, Repr

/-- Result of invoking one of the `@mcp.tool()` functions: a returned value,
an `HTTPException(status_code, detail)` raised by the function itself, or an
exception that escapes the function uncaught. -/
inductive ToolResult (α : Type) where
  | ok (value : α) : ToolResult α
  | httpException (status_code : Nat) (detail : String) : ToolResult α
  | uncaught (e : PyExc) : ToolResult α
  deriving Repr

/-- The filter inside `list_compiler_versions`, §4.2's `filterCompilersByRegex`:
keep the compilers whose `name` or `id` the regex matches.  `search s` stands
for `re.search(compiler_regex, s, re.IGNORECASE) is not None`; the regex
engine is the Python standard library, abstracted as the predicate itself. -/
def filterCompilersByRegex (search : List Char → Bool) (compilers : List CompilerDesc) :
    List CompilerDesc :=
  compilers.filter fun c => search c.name || search c.id

/-- Python `d.pop(k)` on a dict modelled as an association list with unique
keys: the value at `k` together with the dict without `k`, or `none` when `k`
is absent (in Python: a `KeyError`). -/
def dictPop (d : List (String × String)) (k : String) :
    Option (String × List (String × String)) :=
  match d.find? (fun p => p.1 == k) with
  | none => none
  | some p => some (p.2, d.filter fun q => !(q.1 == k))

/-- Tool `list_languages`: forward the client result; on
`CompilerExplorerError` raise `HTTPException(e.status_code, str(e))`. -/
def list_languages_tool {α : Type} (r : Except CompilerExplorerError α) : ToolResult α :=
  match r with
  | .ok v => .ok v
  | .error e => .httpException e.status_code e.message

/-- Tool `list_compilers_for_language`: map the listing through
`get_unversioned_compiler_name` and deduplicate (the Python `set` iteration
order is unspecified; the model keeps first occurrences in listing order).
On `CompilerExplorerError` raise `HTTPException(e.status_code, str(e))`. -/
def list_compilers_for_language_tool
    (r : Except CompilerExplorerError (List CompilerDesc)) : ToolResult (List (List Char)) :=
  match r with
  | .ok compilers =>
      .ok ((compilers.map fun c => get_unversioned_compiler_name c.name c.semver).dedup)
  | .error e => .httpException e.status_code e.message

/-- Tool `list_compiler_versions`: the body has no `try`/`except`, so a
`CompilerExplorerError` from the client escapes uncaught. -/
def list_compiler_versions_tool (search : List Char → Bool)
    (r : Except CompilerExplorerError (List CompilerDesc)) : ToolResult (List CompilerDesc) :=
  match r with
  | .ok compilers => .ok (filterCompilersByRegex search compilers)
  | .error e => .uncaught (.ceError e.message e.status_code)

/-- ASCII apostrophe, as used by the f-string in `compile_code`. -/
def squote : String := String.singleton (Char.ofNat 39)

/-- Tool `compile_code`: list the compilers for the language, resolve the
compiler reference, then submit the compilation (`compileRes` is the client's
compile call as a function of the resolved id).  The `HTTPException(404)` for
an unresolved reference is raised inside the `try` but is not a
`CompilerExplorerError`, so it propagates as is. -/
def compile_code_tool {α : Type} (compiler : List Char)
    (listRes : Except CompilerExplorerError (List CompilerDesc))
    (compileRes : List Char → Except CompilerExplorerError α) : ToolResult α :=
  match listRes with
  | .error e => .httpException e.status_code e.message
  | .ok compilers =>
    match infer_compiler_id compiler compilers with
    | none =>
        .httpException 404
          ("Compiler " ++ squote ++ String.mk compiler ++ squote ++ " not found")
    | some compiler_id =>
      match compileRes compiler_id with
      | .ok v => .ok v
      | .error e => .httpException e.status_code e.message

/-- Tool `get_opcode_documentation`: no `try`/`except`, so a
`CompilerExplorerError` escapes uncaught; on success `resp.pop("html")` either
removes the `"html"` entry or raises `KeyError("html")`. -/
def get_opcode_documentation_tool
    (r : Except CompilerExplorerError (List (String × String))) :
    ToolResult (List (String × String)) :=
  match r with
  | .error e => .uncaught (.ceError e.message e.status_code)
  | .ok resp =>
    match dictPop resp "html" with
    | none => .uncaught (.keyError "html")
    | some (_, rest) => .ok rest

/-! ## Helper lemmas -/

/-- A `pyRemoveFuel` pass over a string with no occurrence of the pattern is
the identity, whatever the fuel. -/
theorem pyRemoveFuel_of_not_contains (pat : List Char) :
    ∀ (n : Nat) (s : List Char), containsSub s pat = false → pyRemoveFuel pat n s = s := by
  intro n
  induction n with
  | zero => intro s _; rfl
  | succ n ih =>
    intro s h
    match s with
    | [] => rfl
    | c :: rest =>
      rw [containsSub, Bool.or_eq_false_iff] at h
      obtain ⟨h1, h2⟩ := h
      simp [pyRemoveFuel, h1, ih rest h2]

/-- `s.replace(pat, "")` is the identity when `pat` does not occur in `s`. -/
theorem pyRemove_of_not_contains (s pat : List Char) (h : containsSub s pat = false) :
    pyRemove s pat = s :=
  pyRemoveFuel_of_not_contains pat s.length s h

/-- `dropWhile` fixpoints are closed under taking left factors. -/
theorem dropWhile_eq_self_of_append {α : Type} (p : α → Bool) (y t : List α)
    (h : List.dropWhile p (y ++ t) = y ++ t) : List.dropWhile p y = y := by
  cases y with
  | nil => simp [List.dropWhile]
  | cons c y' =>
    by_cases hc : p c
    · exfalso
      rw [List.cons_append, List.dropWhile_cons_of_pos hc] at h
      have hlen := (List.dropWhile_sublist (l := y' ++ t) p).length_le
      rw [h] at hlen
      simp at hlen
    · exact List.dropWhile_cons_of_neg hc

/-- Python `strip` is idempotent. -/
theorem pyStrip_idem (s : List Char) : pyStrip (pyStrip s) = pyStrip s := by
  have hada : List.dropWhile pyIsSpace (s.dropWhile pyIsSpace) = s.dropWhile pyIsSpace :=
    List.dropWhile_idempotent pyIsSpace s
  have h1 := List.rdropWhile_prefix pyIsSpace (s.dropWhile pyIsSpace)
  simp only [List.rdropWhile] at h1
  obtain ⟨t, ht⟩ := h1
  have hdb : List.dropWhile pyIsSpace (pyStrip s) = pyStrip s := by
    apply dropWhile_eq_self_of_append pyIsSpace (pyStrip s) t
    show List.dropWhile pyIsSpace (pyStrip s ++ t) = pyStrip s ++ t
    unfold pyStrip
    rw [ht]
    exact hada
  show ((List.dropWhile pyIsSpace (pyStrip s)).reverse.dropWhile pyIsSpace).reverse = pyStrip s
  rw [hdb]
  unfold pyStrip
  rw [List.reverse_reverse, List.dropWhile_idempotent]

/-- The once-stripped name is a `pyStrip` fixpoint. -/
theorem pyStrip_get_unversioned (s v : List Char) :
    pyStrip (get_unversioned_compiler_name s v) = get_unversioned_compiler_name s v := by
  unfold get_unversioned_compiler_name
  exact pyStrip_idem _

/-- Filtering a key out of an association list leaves no entry with that key. -/
theorem find?_filter_key_none (l : List (String × String)) (k : String) :
    ((l.filter fun q => !(q.1 == k)).find? fun p => p.1 == k) = none := by
  rw [List.find?_eq_none]
  intro x hx
  rw [List.mem_filter] at hx
  simp only [Bool.not_eq_true'] at hx
  simp only [Bool.not_eq_true]
  exact hx.2

/-- The id-membership test of `infer_compiler_id`, unfolded. -/
theorem contains_ids_iff (L : List CompilerDesc) (x : List Char) :
    ((L.map fun c => c.id).contains x = true) ↔ ∃ c, c ∈ L ∧ c.id = x := by
  simp [List.contains, List.elem_iff, List.mem_map]

/-! ## Claim theorems -/

/-- C1: what `_make_request` actually does on a non-JSON 2xx response body.
The inner `except json.JSONDecodeError` raises
`CompilerExplorerError("Invalid JSON response: " + detail)` from inside the
outer `try`, so the blanket `except Exception` catches it and re-raises
`CompilerExplorerError("Unexpected error: " + str(e))`: the surfaced message
is `"Unexpected error: Invalid JSON response: " + detail` (status 500), not
the claimed `"Invalid JSON response: " + detail`. -/
theorem make_request_invalid_json_wrapped (α : Type) (d : String) :
    make_request (RequestOutcome.invalidJson d : RequestOutcome α)
      = Except.error ⟨"Unexpected error: Invalid JSON response: " ++ d, 500⟩ := by
  have hmsg : ("Unexpected error: Invalid JSON response: " ++ d)
      = "Unexpected error: " ++ ("Invalid JSON response: " ++ d) := by
    rw [← String.append_assoc]; rfl
  rw [hmsg]
  rfl

/-- C2: `list_compiler_versions` and `get_opcode_documentation` have no
`try`/`except` around the client call, so a `ServiceError` (here the timeout
error) escapes uncaught instead of being translated to `HTTPException`. -/
theorem service_error_escapes_untranslated :
    list_compiler_versions_tool (fun _ => true)
        (Except.error ⟨"Request timed out", 500⟩)
      = ToolResult.uncaught (PyExc.ceError "Request timed out" 500)
    ∧ get_opcode_documentation_tool (Except.error ⟨"Request timed out", 500⟩)
      = ToolResult.uncaught (PyExc.ceError "Request timed out" 500) :=
  ⟨rfl, rfl⟩

/-- C3 counterexample: the claim fails when the queried display name is the
exact id of a *different* descriptor.  Here `D = {id:"g2", name:"gcc"}` is in
`L`, but `resolveCompilerId(D.name, L)` returns `"gcc"` (the first
descriptor's id, matched by the exact-id rule) rather than `D.id = "g2"`. -/
theorem infer_compiler_id_name_shadowed_by_id :
    CompilerDesc.mk "g2".toList "gcc".toList "1".toList
        ∈ [CompilerDesc.mk "gcc".toList "x".toList "1".toList,
           CompilerDesc.mk "g2".toList "gcc".toList "1".toList]
    ∧ infer_compiler_id "gcc".toList
        [CompilerDesc.mk "gcc".toList "x".toList "1".toList,
         CompilerDesc.mk "g2".toList "gcc".toList "1".toList]
      = some "gcc".toList
    ∧ ("gcc".toList ≠ "g2".toList) := by decide

/-- C3 (amended): if the query string `q` — any case and leading/trailing
whitespace variant of `D.name`, i.e. any `q` with
`pyStrip (pyLower q) = pyStrip (pyLower D.name)` — is not the exact id of any
descriptor in `L`, then `infer_compiler_id` returns the id of the *first*
descriptor in listing order whose lowered, stripped name equals the lowered,
stripped query (D.id when D is that first entry). -/
theorem infer_compiler_id_first_name_match (L : List CompilerDesc) (D : CompilerDesc)
    (q : List Char) (hD : D ∈ L)
    (hvar : pyStrip (pyLower q) = pyStrip (pyLower D.name))
    (hid : ∀ c, c ∈ L → c.id ≠ q) :
    ∃ Dfst, (L.find? fun c => pyStrip (pyLower c.name) == pyStrip (pyLower q)) = some Dfst
      ∧ infer_compiler_id q L = some Dfst.id := by
  have hcontains : (L.map fun c => c.id).contains q = false := by
    by_contra hcon
    rw [Bool.not_eq_false] at hcon
    obtain ⟨c, hc, hcid⟩ := (contains_ids_iff L q).mp hcon
    exact hid c hc hcid
  have hsome : ((L.find? fun c =>
      pyStrip (pyLower c.name) == pyStrip (pyLower q)).isSome) := by
    rw [List.find?_isSome]
    exact ⟨D, hD, by rw [beq_iff_eq]; exact hvar.symm⟩
  obtain ⟨Dfst, hfst⟩ := Option.isSome_iff_exists.mp hsome
  refine ⟨Dfst, hfst, ?_⟩
  simp only [infer_compiler_id, hcontains, Bool.false_eq_true, if_false, hfst,
    Option.map_some']

/-- C3 amended, witness: `"  gCc 12.2 "` (case and whitespace variant of
`"GCC 12.2"`) resolves to `"gcc-12.2"`. -/
theorem infer_compiler_id_first_name_match_witness :
    ∃ Dfst,
      (([CompilerDesc.mk "gcc-12.2".toList "GCC 12.2".toList "12.2".toList].find? fun c =>
          pyStrip (pyLower c.name) == pyStrip (pyLower "  gCc 12.2 ".toList)) = some Dfst)
      ∧ infer_compiler_id "  gCc 12.2 ".toList
          [CompilerDesc.mk "gcc-12.2".toList "GCC 12.2".toList "12.2".toList]
        = some Dfst.id :=
  infer_compiler_id_first_name_match
    [CompilerDesc.mk "gcc-12.2".toList "GCC 12.2".toList "12.2".toList]
    (CompilerDesc.mk "gcc-12.2".toList "GCC 12.2".toList "12.2".toList)
    "  gCc 12.2 ".toList (by decide) (by decide) (by decide)

/-- C4 counterexample: `stripVersion` is not idempotent.  With
`s = "aabb"`, `v = "ab"` one application gives `"ab"` (the single-pass
`replace` deletes the middle occurrence and the remaining characters join
into a new one), the second application gives `""`. -/
theorem get_unversioned_compiler_name_not_idempotent :
    get_unversioned_compiler_name
        (get_unversioned_compiler_name "aabb".toList "ab".toList) "ab".toList
      ≠ get_unversioned_compiler_name "aabb".toList "ab".toList := by decide

/-- C4 (amended): `stripVersion` is idempotent whenever the once-stripped
result contains no occurrence of the version token, of `"none"`, or of
`"()"` — then each removal pass is the identity and `strip` is idempotent. -/
theorem get_unversioned_compiler_name_idem_of_stable (s v : List Char)
    (h1 : containsSub (get_unversioned_compiler_name s v) v = false)
    (h2 : containsSub (get_unversioned_compiler_name s v) "none".toList = false)
    (h3 : containsSub (get_unversioned_compiler_name s v) "()".toList = false) :
    get_unversioned_compiler_name (get_unversioned_compiler_name s v) v
      = get_unversioned_compiler_name s v := by
  have hX : pyStrip (get_unversioned_compiler_name s v) = get_unversioned_compiler_name s v :=
    pyStrip_get_unversioned s v
  show pyStrip (pyRemove (pyRemove (pyRemove (get_unversioned_compiler_name s v) v)
      "none".toList) "()".toList) = get_unversioned_compiler_name s v
  rw [pyRemove_of_not_contains _ v h1, pyRemove_of_not_contains _ "none".toList h2,
    pyRemove_of_not_contains _ "()".toList h3]
  exact hX

/-- C4 amended, witness: on the realistic input `("GCC 12.2", "12.2")` the
stripped name `"GCC"` is stable, and a second strip is the identity. -/
theorem get_unversioned_compiler_name_idem_of_stable_witness :
    get_unversioned_compiler_name
        (get_unversioned_compiler_name "GCC 12.2".toList "12.2".toList) "12.2".toList
      = get_unversioned_compiler_name "GCC 12.2".toList "12.2".toList :=
  get_unversioned_compiler_name_idem_of_stable "GCC 12.2".toList "12.2".toList
    (by decide) (by decide) (by decide)

/-- C5: an exact (case-sensitive) id match always resolves to itself: for any
descriptor `D` in the listing, `infer_compiler_id D.id L = some D.id`. -/
theorem infer_compiler_id_exact_id (L : List CompilerDesc) (D : CompilerDesc)
    (hD : D ∈ L) : infer_compiler_id D.id L = some D.id := by
  have h : (L.map fun c => c.id).contains D.id = true :=
    (contains_ids_iff L D.id).mpr ⟨D, hD, rfl⟩
  unfold infer_compiler_id
  split
  · rfl
  · next hcond => exact absurd h hcond

/-- C5 witness. -/
theorem infer_compiler_id_exact_id_witness :
    infer_compiler_id "gcc-12.2".toList
        [CompilerDesc.mk "gcc-12.2".toList "GCC 12.2".toList "12.2".toList]
      = some "gcc-12.2".toList :=
  infer_compiler_id_exact_id
    [CompilerDesc.mk "gcc-12.2".toList "GCC 12.2".toList "12.2".toList]
    (CompilerDesc.mk "gcc-12.2".toList "GCC 12.2".toList "12.2".toList) (by decide)

/-- C6: the concrete example of the claim (and of the function's own
docstring) is wrong: `"gcc-12.2".replace("12.2", "")` leaves the hyphen, and
`strip` does not remove it, so the result is `"gcc-"`, not `"gcc"`. -/
theorem get_unversioned_compiler_name_keeps_hyphen :
    get_unversioned_compiler_name "gcc-12.2".toList "12.2".toList = "gcc-".toList
    ∧ ("gcc-".toList ≠ "gcc".toList) := by decide

/-- C7: the filter of `list_compiler_versions` keeps exactly the descriptors
whose `name` or `id` the (case-insensitive) regex search accepts, in listing
order (the result is a sublist of the input); it is empty when nothing
matches and the whole listing when the pattern accepts everything (e.g. the
empty pattern).  `search` abstracts `re.search(pattern, ., re.IGNORECASE)`. -/
theorem filterCompilersByRegex_spec (search : List Char → Bool) (L : List CompilerDesc) :
    (∀ c, c ∈ filterCompilersByRegex search L
        ↔ c ∈ L ∧ (search c.name = true ∨ search c.id = true))
    ∧ (filterCompilersByRegex search L).Sublist L
    ∧ ((∀ c, c ∈ L → search c.name = false ∧ search c.id = false) →
        filterCompilersByRegex search L = [])
    ∧ ((∀ c, c ∈ L → search c.name = true ∨ search c.id = true) →
        filterCompilersByRegex search L = L) := by
  refine ⟨?_, ?_, ?_, ?_⟩
  · intro c
    rw [filterCompilersByRegex, List.mem_filter]
    simp
  · exact List.filter_sublist L
  · intro h
    rw [filterCompilersByRegex, List.filter_eq_nil_iff]
    intro c hc
    simp [(h c hc).1, (h c hc).2]
  · intro h
    rw [filterCompilersByRegex, List.filter_eq_self]
    intro c hc
    rcases h c hc with h1 | h1 <;> simp [h1]

/-- C7 witness: a catch-all search keeps the whole listing, a never-matching
search keeps nothing. -/
theorem filterCompilersByRegex_spec_witness :
    filterCompilersByRegex (fun _ => true)
        [CompilerDesc.mk "a".toList "b".toList "c".toList]
      = [CompilerDesc.mk "a".toList "b".toList "c".toList]
    ∧ filterCompilersByRegex (fun _ => false)
        [CompilerDesc.mk "a".toList "b".toList "c".toList] = [] :=
  ⟨(filterCompilersByRegex_spec (fun _ => true)
      [CompilerDesc.mk "a".toList "b".toList "c".toList]).2.2.2 (fun _ _ => Or.inl rfl),
   (filterCompilersByRegex_spec (fun _ => false)
      [CompilerDesc.mk "a".toList "b".toList "c".toList]).2.2.1 (fun _ _ => ⟨rfl, rfl⟩)⟩

/-- C8: a timeout of the HTTP call surfaces as
`CompilerExplorerError("Request timed out", 500)`, with no value returned. -/
theorem make_request_timeout (α : Type) :
    make_request (RequestOutcome.timeout : RequestOutcome α)
      = Except.error ⟨"Request timed out", 500⟩ := rfl

/-- C9: `get_opcode_documentation` is partial at the public interface: when
the documentation record has an `"html"` entry the tool returns the record
with that entry removed (and the result has no `"html"` entry); when the
record has no `"html"` entry, `resp.pop("html")` raises a `KeyError` that
escapes uncaught — not a `(status code, message)` error. -/
theorem get_opcode_documentation_html_cases (resp : List (String × String))
    (v : String) (rest : List (String × String)) :
    (dictPop resp "html" = some (v, rest) →
      get_opcode_documentation_tool (Except.ok resp) = ToolResult.ok rest
      ∧ (rest.find? fun p => p.1 == "html") = none)
    ∧ (dictPop resp "html" = none →
      get_opcode_documentation_tool (Except.ok resp)
        = ToolResult.uncaught (PyExc.keyError "html")) := by
  constructor
  · intro h
    refine ⟨by simp [get_opcode_documentation_tool, h], ?_⟩
    unfold dictPop at h
    cases hf : resp.find? fun p => p.1 == "html" with
    | none => rw [hf] at h; cases h
    | some p =>
      rw [hf] at h
      simp only [Option.some.injEq, Prod.mk.injEq] at h
      obtain ⟨_, hrest⟩ := h
      rw [← hrest]
      exact find?_filter_key_none resp "html"
  · intro h
    simp [get_opcode_documentation_tool, h]

/-- C9 witness: a record with an `"html"` entry loses exactly that entry; a
record without one makes the `KeyError` escape. -/
theorem get_opcode_documentation_html_cases_witness :
    (get_opcode_documentation_tool (Except.ok [("html", "H"), ("tooltip", "T")])
        = ToolResult.ok [("tooltip", "T")]
      ∧ (([("tooltip", "T")] : List (String × String)).find? fun p => p.1 == "html") = none)
    ∧ get_opcode_documentation_tool (Except.ok [("tooltip", "T")])
        = ToolResult.uncaught (PyExc.keyError "html") :=
  ⟨(get_opcode_documentation_html_cases [("html", "H"), ("tooltip", "T")] "H"
      [("tooltip", "T")]).1 rfl,
   (get_opcode_documentation_html_cases [("tooltip", "T")] "" []).2 rfl⟩

/-- C10: `infer_compiler_id` never fabricates an id: a non-`none` result is
the id of some descriptor of the listing. -/
theorem infer_compiler_id_no_fabrication (ref : List Char) (L : List CompilerDesc)
    (r : List Char) (h : infer_compiler_id ref L = some r) :
    ∃ c, c ∈ L ∧ c.id = r := by
  unfold infer_compiler_id at h
  split at h
  case isTrue hcond =>
    injection h with h'
    obtain ⟨c, hcL, hcid⟩ := (contains_ids_iff L ref).mp hcond
    exact ⟨c, hcL, by rw [hcid, h']⟩
  case isFalse hcond =>
    rw [Option.map_eq_some'] at h
    obtain ⟨c, hfind, hcid⟩ := h
    exact ⟨c, List.mem_of_find?_eq_some hfind, hcid⟩

/-- C10 witness. -/
theorem infer_compiler_id_no_fabrication_witness :
    ∃ c, c ∈ [CompilerDesc.mk "gcc-12.2".toList "GCC 12.2".toList "12.2".toList]
      ∧ c.id = "gcc-12.2".toList :=
  infer_compiler_id_no_fabrication "gcc 12.2".toList
    [CompilerDesc.mk "gcc-12.2".toList "GCC 12.2".toList "12.2".toList]
    "gcc-12.2".toList (by decide)

